import Mathlib

/-!
Verification development for a two-tier todo application: an Angular
frontend (app.component.ts) and an ASP.NET backend (Program.cs) whose
store is an identity-partitioned in-memory service
(TodoService over a ConcurrentDictionary keyed by subject, then by id).

Part 1: the identity-partitioned store.
The data model follows the TodoItem interface of app.component.ts and the
TodoService excerpt of the repository documentation; operations whose
implementation is not in the sources are modelled from the spec, as
marked on each definition.
-/

/-- The task record, following the TodoItem interface of
app.component.ts (id, title, description, isCompleted, createdDate,
updatedDate); timestamps are modelled as natural numbers. -/
structure TodoItem where
  id : Nat
  title : String
  description : String
  isCompleted : Bool
  createdDate : Nat
  updatedDate : Nat
deriving Repr, DecidableEq

/-- One partition of the store: the records owned by one subject plus the
monotonic per-partition id counter of the spec (ids start at 1). -/
structure Partition where
  records : List TodoItem
  nextId : Nat
deriving Repr, DecidableEq

def emptyPartition : Partition := { records := [], nextId := 1 }

/-- The store maps each subjectId to its partition; partitions are
created lazily (an unseen subject maps to the empty partition), matching
ConcurrentDictionary.GetOrAdd in TodoService. -/
abbrev Store := String → Partition

def emptyStore : Store := fun _ => emptyPartition

inductive StoreError
  | NotFound
  | InvalidArgument
deriving Repr, DecidableEq

/-- Ordering used by TodoService.GetTodosAsync:
OrderByDescending on CreatedDate. -/
def byCreatedDesc (a b : TodoItem) : Prop := b.createdDate ≤ a.createdDate

instance : DecidableRel byCreatedDesc := fun a b =>
  Nat.decLe b.createdDate a.createdDate

instance : IsTotal TodoItem byCreatedDesc :=
  ⟨fun a b => (Nat.le_total a.createdDate b.createdDate).symm⟩

instance : IsTrans TodoItem byCreatedDesc :=
  ⟨fun _ _ _ hab hbc => Nat.le_trans hbc hab⟩

/-- Embeds TodoService.GetTodosAsync from the repository documentation:
the partition is fetched with GetOrAdd (lazily created when absent) and
its values are returned ordered by CreatedDate descending. -/
def GetTodosAsync (σ : Store) (userId : String) : List TodoItem :=
  List.insertionSort byCreatedDesc (σ userId).records

/-- A string whose trimmed form is empty: every character is whitespace.
This is the emptiness test on the trimmed title used by the validation
guards (title.trim() in app.component.ts). -/
def isBlank (s : String) : Bool := s.data.all Char.isWhitespace

/-- Modelled from the spec: the create operation of the
identity-partitioned store (TodoService.CreateTodoAsync is not among the
sources, only its callers and the service skeleton are). A title whose
trimmed form is empty fails with InvalidArgument and leaves the store
unchanged; otherwise the next id of the partition counter is assigned,
createdAt = updatedAt = now, isCompleted = false, and the full record is
returned. -/
def create (σ : Store) (s title description : String) (now : Nat) :
    Except StoreError TodoItem × Store :=
  if isBlank title then (.error .InvalidArgument, σ)
  else
    let p := σ s
    let item : TodoItem :=
      { id := p.nextId, title := title, description := description,
        isCompleted := false, createdDate := now, updatedDate := now }
    (.ok item,
     fun s' => if s' = s then
         { records := p.records ++ [item], nextId := p.nextId + 1 }
       else σ s')

/-- Modelled from the spec: the get operation returns the record when it
is present in the partition of the calling subject, and fails with
NotFound otherwise (a record of another partition is indistinguishable
from an absent one). -/
def getTodo (σ : Store) (s : String) (id : Nat) : Except StoreError TodoItem :=
  match (σ s).records.find? (fun t => t.id == id) with
  | some t => .ok t
  | none => .error .NotFound

/-- The mutable fields of a record, as sent by the update callers of
app.component.ts. -/
structure TodoPatch where
  title : String
  description : String
  isCompleted : Bool
deriving Repr, DecidableEq

/-- The record after a patch is applied: the mutable fields are replaced
from the patch, updatedAt is set to now, id and createdAt are kept. -/
def applyPatch (t : TodoItem) (patch : TodoPatch) (now : Nat) : TodoItem :=
  { t with title := patch.title, description := patch.description,
           isCompleted := patch.isCompleted, updatedDate := now }

/-- Modelled from the spec: the update operation requires the record to
exist in the partition of the calling subject (else NotFound, with no
state change); it replaces the mutable fields from the patch, sets
updatedAt = now, preserves id and createdAt, and returns the updated
record. -/
def update (σ : Store) (s : String) (id : Nat) (patch : TodoPatch)
    (now : Nat) : Except StoreError TodoItem × Store :=
  match (σ s).records.find? (fun t => t.id == id) with
  | none => (.error .NotFound, σ)
  | some t =>
    let t' : TodoItem := applyPatch t patch now
    (.ok t',
     fun s' => if s' = s then
         { records := (σ s).records.map (fun u => if u.id == id then t' else u),
           nextId := (σ s).nextId }
       else σ s')

/-- Modelled from the spec: the delete operation requires existence in
the partition of the calling subject (else NotFound) and removes the
record; the partition counter is not decreased, so ids are never
reused. -/
def delete (σ : Store) (s : String) (id : Nat) :
    Except StoreError Unit × Store :=
  if (σ s).records.any (fun t => t.id == id) then
    (.ok (),
     fun s' => if s' = s then
         { records := (σ s).records.filter (fun t => ! (t.id == id)),
           nextId := (σ s).nextId }
       else σ s')
  else (.error .NotFound, σ)

/-- Well-formedness of a partition: every stored id is below the counter
and ids are pairwise distinct. -/
def PartitionWF (p : Partition) : Prop :=
  (∀ t ∈ p.records, t.id < p.nextId) ∧
    p.records.Pairwise (fun a b => a.id ≠ b.id)

def StoreWF (σ : Store) : Prop := ∀ s, PartitionWF (σ s)

theorem emptyStore_wf : StoreWF emptyStore := by
  intro s
  exact ⟨fun t ht => absurd ht (List.not_mem_nil t), List.Pairwise.nil⟩

theorem find?_id_eq_none {l : List TodoItem} {n : Nat}
    (h : ∀ u ∈ l, u.id ≠ n) : l.find? (fun t => t.id == n) = none := by
  rw [List.find?_eq_none]
  intro x hx
  simpa using h x hx

theorem create_apply_ne (σ : Store) (s title description : String)
    (now : Nat) {s' : String} (h : s' ≠ s) :
    (create σ s title description now).2 s' = σ s' := by
  unfold create
  split
  · rfl
  · simp [h]

theorem update_apply_ne (σ : Store) (s : String) (id : Nat)
    (patch : TodoPatch) (now : Nat) {s' : String} (h : s' ≠ s) :
    (update σ s id patch now).2 s' = σ s' := by
  unfold update
  split
  · rfl
  · simp [h]

theorem delete_apply_ne (σ : Store) (s : String) (id : Nat)
    {s' : String} (h : s' ≠ s) :
    (delete σ s id).2 s' = σ s' := by
  unfold delete
  split
  · simp [h]
  · rfl

theorem create_wf {σ : Store} (hwf : StoreWF σ)
    (s title description : String) (now : Nat) :
    StoreWF (create σ s title description now).2 := by
  intro s'
  by_cases hs : s' = s
  · subst hs
    unfold create
    split
    · exact hwf s'
    · simp only [eq_self_iff_true, if_true]
      constructor
      · intro t ht
        rcases List.mem_append.mp ht with hmem | hmem
        · exact Nat.lt_succ_of_lt ((hwf s').1 t hmem)
        · rcases List.mem_singleton.mp hmem with rfl
          exact Nat.lt_succ_self _
      · rw [List.pairwise_append]
        refine ⟨(hwf s').2, List.pairwise_singleton _ _, ?_⟩
        intro a ha b hb
        rcases List.mem_singleton.mp hb with rfl
        exact Nat.ne_of_lt ((hwf s').1 a ha)
  · rw [create_apply_ne σ s title description now hs]
    exact hwf s'

theorem update_id_preserved {t : TodoItem} {id : Nat} (ht : t.id = id)
    (patch : TodoPatch) (now : Nat) (u : TodoItem) :
    (if u.id == id then applyPatch t patch now else u).id = u.id := by
  by_cases h : (u.id == id) = true
  · have hu : u.id = id := by simpa using h
    rw [if_pos h]
    show t.id = u.id
    rw [ht, hu]
  · rw [if_neg h]

theorem update_wf {σ : Store} (hwf : StoreWF σ) (s : String) (id : Nat)
    (patch : TodoPatch) (now : Nat) :
    StoreWF (update σ s id patch now).2 := by
  intro s'
  by_cases hs : s' = s
  · subst hs
    unfold update
    split
    · exact hwf s'
    · rename_i t heq
      have ht : t.id = id := by simpa using List.find?_some heq
      simp only [eq_self_iff_true, if_true]
      constructor
      · intro v hv
        rcases List.mem_map.mp hv with ⟨u, hu, rfl⟩
        rw [update_id_preserved ht patch now u]
        exact (hwf s').1 u hu
      · rw [List.pairwise_map]
        refine List.Pairwise.imp ?_ (hwf s').2
        intro a b hab
        rw [update_id_preserved ht patch now a, update_id_preserved ht patch now b]
        exact hab
  · rw [update_apply_ne σ s id patch now hs]
    exact hwf s'

theorem delete_wf {σ : Store} (hwf : StoreWF σ) (s : String) (id : Nat) :
    StoreWF (delete σ s id).2 := by
  intro s'
  by_cases hs : s' = s
  · subst hs
    unfold delete
    split
    · simp only [eq_self_iff_true, if_true]
      constructor
      · intro t ht
        exact (hwf s').1 t (List.mem_filter.mp ht).1
      · exact List.Pairwise.sublist (List.filter_sublist _) (hwf s').2
    · exact hwf s'
  · rw [delete_apply_ne σ s id hs]
    exact hwf s'

/-- One store operation of a request history (subjects and payloads as
dispatched by the request layer after token validation). -/
inductive Op
  | create (s title description : String) (now : Nat)
  | update (s : String) (id : Nat) (patch : TodoPatch) (now : Nat)
  | delete (s : String) (id : Nat)
deriving Repr

/-- The state reached after one operation. -/
def applyOp (σ : Store) : Op → Store
  | .create s title description now => (create σ s title description now).2
  | .update s id patch now => (update σ s id patch now).2
  | .delete s id => (delete σ s id).2

/-- The state reached from the fresh store after a history of
operations. -/
def run (ops : List Op) : Store := ops.foldl applyOp emptyStore

/-- The ids handed out by the successful creates of a history, for one
partition, in order of assignment. -/
def createdIdsFrom : Store → List Op → String → List Nat
  | _, [], _ => []
  | σ, op :: ops, S =>
    (match op with
     | .create s title _ _ =>
       if s = S ∧ isBlank title = false then [(σ S).nextId] else []
     | _ => []) ++ createdIdsFrom (applyOp σ op) ops S

theorem applyOp_wf {σ : Store} (hwf : StoreWF σ) (op : Op) :
    StoreWF (applyOp σ op) := by
  cases op with
  | create s title description now => exact create_wf hwf s title description now
  | update s id patch now => exact update_wf hwf s id patch now
  | delete s id => exact delete_wf hwf s id

theorem foldl_applyOp_wf (ops : List Op) :
    ∀ σ : Store, StoreWF σ → StoreWF (ops.foldl applyOp σ) := by
  induction ops with
  | nil => intro σ h; exact h
  | cons op ops ih => intro σ h; exact ih (applyOp σ op) (applyOp_wf h op)

theorem run_wf (ops : List Op) : StoreWF (run ops) :=
  foldl_applyOp_wf ops emptyStore emptyStore_wf

theorem nextId_mono (σ : Store) (op : Op) (S : String) :
    (σ S).nextId ≤ ((applyOp σ op) S).nextId := by
  cases op with
  | create s title description now =>
    by_cases hs : S = s
    · subst hs
      show (σ S).nextId ≤ ((create σ S title description now).2 S).nextId
      unfold create
      split
      · exact Nat.le_refl _
      · simp only [eq_self_iff_true, if_true]
        exact Nat.le_succ _
    · rw [show applyOp σ (.create s title description now) S =
            (create σ s title description now).2 S from rfl,
          create_apply_ne σ s title description now hs]
  | update s id patch now =>
    by_cases hs : S = s
    · subst hs
      show (σ S).nextId ≤ ((update σ S id patch now).2 S).nextId
      unfold update
      split
      · exact Nat.le_refl _
      · simp only [eq_self_iff_true, if_true]
        exact Nat.le_refl _
    · rw [show applyOp σ (.update s id patch now) S =
            (update σ s id patch now).2 S from rfl,
          update_apply_ne σ s id patch now hs]
  | delete s id =>
    by_cases hs : S = s
    · subst hs
      show (σ S).nextId ≤ ((delete σ S id).2 S).nextId
      unfold delete
      split
      · simp only [eq_self_iff_true, if_true]
        exact Nat.le_refl _
      · exact Nat.le_refl _
    · rw [show applyOp σ (.delete s id) S = (delete σ s id).2 S from rfl,
          delete_apply_ne σ s id hs]

theorem createdIdsFrom_lb (ops : List Op) :
    ∀ (σ : Store) (S : String) (x : Nat),
      x ∈ createdIdsFrom σ ops S → (σ S).nextId ≤ x := by
  induction ops with
  | nil => intro σ S x hx; exact absurd hx (List.not_mem_nil x)
  | cons op ops ih =>
    intro σ S x hx
    unfold createdIdsFrom at hx
    rcases List.mem_append.mp hx with hx | hx
    · cases op with
      | create s title description now =>
        dsimp only at hx
        by_cases hc : s = S ∧ isBlank title = false
        · rw [if_pos hc] at hx
          rcases List.mem_singleton.mp hx with rfl
          exact Nat.le_refl _
        · rw [if_neg hc] at hx
          exact absurd hx (List.not_mem_nil x)
      | update s id patch now => exact absurd hx (List.not_mem_nil x)
      | delete s id => exact absurd hx (List.not_mem_nil x)
    · exact Nat.le_trans (nextId_mono σ op S) (ih (applyOp σ op) S x hx)

theorem create_nextId_succ (σ : Store) (S title description : String)
    (now : Nat) (hb : isBlank title = false) :
    ((create σ S title description now).2 S).nextId = (σ S).nextId + 1 := by
  unfold create
  rw [if_neg (by simp [hb])]
  simp only [eq_self_iff_true, if_true]

theorem createdIdsFrom_pairwise (ops : List Op) :
    ∀ (σ : Store) (S : String),
      List.Pairwise (fun a b => a < b) (createdIdsFrom σ ops S) := by
  induction ops with
  | nil => intro σ S; exact List.Pairwise.nil
  | cons op ops ih =>
    intro σ S
    unfold createdIdsFrom
    rw [List.pairwise_append]
    refine ⟨?_, ih (applyOp σ op) S, ?_⟩
    · cases op with
      | create s title description now =>
        dsimp only
        by_cases hc : s = S ∧ isBlank title = false
        · rw [if_pos hc]; exact List.pairwise_singleton _ _
        · rw [if_neg hc]; exact List.Pairwise.nil
      | update s id patch now => exact List.Pairwise.nil
      | delete s id => exact List.Pairwise.nil
    · intro a ha b hb
      have hb' : ((applyOp σ op) S).nextId ≤ b :=
        createdIdsFrom_lb ops (applyOp σ op) S b hb
      cases op with
      | create s title description now =>
        dsimp only at ha
        by_cases hc : s = S ∧ isBlank title = false
        · rw [if_pos hc] at ha
          rcases List.mem_singleton.mp ha with rfl
          rcases hc with ⟨hs, hblank⟩
          subst hs
          have : ((create σ s title description now).2 s).nextId =
              (σ s).nextId + 1 := create_nextId_succ σ s title description now hblank
          have h2 : (σ s).nextId + 1 ≤ b := by
            rw [show applyOp σ (.create s title description now) s =
                  (create σ s title description now).2 s from rfl, this] at hb'
            exact hb'
          exact Nat.lt_of_succ_le h2
        · rw [if_neg hc] at ha
          exact absurd ha (List.not_mem_nil a)
      | update s id patch now => exact absurd ha (List.not_mem_nil a)
      | delete s id => exact absurd ha (List.not_mem_nil a)

theorem create_fst (σ : Store) (S title description : String) (now : Nat)
    (hb : isBlank title = false) :
    (create σ S title description now).1 =
      .ok { id := (σ S).nextId, title := title, description := description,
            isCompleted := false, createdDate := now, updatedDate := now } := by
  unfold create
  rw [if_neg (by simp [hb])]

theorem create_apply_self (σ : Store) (S title description : String)
    (now : Nat) (hb : isBlank title = false) :
    (create σ S title description now).2 S =
      { records := (σ S).records ++
          [{ id := (σ S).nextId, title := title, description := description,
             isCompleted := false, createdDate := now, updatedDate := now }],
        nextId := (σ S).nextId + 1 } := by
  unfold create
  rw [if_neg (by simp [hb])]
  simp only [eq_self_iff_true, if_true]

/-- C4: create fails with InvalidArgument and leaves the store unchanged
exactly when the trimmed title is empty (so both for the empty string
and for whitespace-only titles); otherwise it assigns the next unused id
of the partition, sets createdAt = updatedAt = now and
isCompleted = false, and returns the full created record. -/
theorem c4_create_validation (σ : Store) (S title description : String)
    (now : Nat) (hwf : StoreWF σ) :
    (isBlank title = true →
        create σ S title description now = (.error .InvalidArgument, σ)) ∧
    (isBlank title = false →
        (create σ S title description now).1 =
          .ok { id := (σ S).nextId, title := title, description := description,
                isCompleted := false, createdDate := now, updatedDate := now } ∧
        (∀ u ∈ (σ S).records, u.id ≠ (σ S).nextId) ∧
        (create σ S title description now).2 S =
          { records := (σ S).records ++
              [{ id := (σ S).nextId, title := title, description := description,
                 isCompleted := false, createdDate := now, updatedDate := now }],
            nextId := (σ S).nextId + 1 } ∧
        (∀ s', s' ≠ S → (create σ S title description now).2 s' = σ s')) := by
  constructor
  · intro hb
    unfold create
    rw [if_pos hb]
  · intro hb
    refine ⟨create_fst σ S title description now hb, ?_,
        create_apply_self σ S title description now hb, ?_⟩
    · intro u hu
      exact Nat.ne_of_lt ((hwf S).1 u hu)
    · intro s' hs'
      exact create_apply_ne σ S title description now hs'

/-- Witness for C4: the empty and the whitespace-only title fail with
InvalidArgument and leave the store unchanged; a non-blank title yields
the full record with id 1 in a fresh partition. -/
theorem c4_create_validation_witness :
    create emptyStore "u1" "" "x" 0 = (.error .InvalidArgument, emptyStore) ∧
    create emptyStore "u1" "  " "x" 0 = (.error .InvalidArgument, emptyStore) ∧
    (create emptyStore "u1" "t" "x" 0).1 =
      .ok { id := 1, title := "t", description := "x", isCompleted := false,
            createdDate := 0, updatedDate := 0 } :=
  ⟨(c4_create_validation emptyStore "u1" "" "x" 0 emptyStore_wf).1 (by decide),
   (c4_create_validation emptyStore "u1" "  " "x" 0 emptyStore_wf).1 (by decide),
   ((c4_create_validation emptyStore "u1" "t" "x" 0 emptyStore_wf).2 (by decide)).1⟩

/-- C5: round-trip — after a successful create, get on the same subject
and the created id returns the created record, with the given title and
description and isCompleted = false. -/
theorem c5_create_get_roundtrip (σ : Store) (S title description : String)
    (now : Nat) (hwf : StoreWF σ) (hb : isBlank title = false) :
    (create σ S title description now).1 =
      .ok { id := (σ S).nextId, title := title, description := description,
            isCompleted := false, createdDate := now, updatedDate := now } ∧
    getTodo (create σ S title description now).2 S ((σ S).nextId) =
      .ok { id := (σ S).nextId, title := title, description := description,
            isCompleted := false, createdDate := now, updatedDate := now } := by
  refine ⟨create_fst σ S title description now hb, ?_⟩
  have hnone : (σ S).records.find? (fun t => t.id == (σ S).nextId) = none :=
    find?_id_eq_none (fun u hu => Nat.ne_of_lt ((hwf S).1 u hu))
  unfold getTodo
  rw [create_apply_self σ S title description now hb]
  dsimp only
  rw [List.find?_append, hnone]
  simp [List.find?]

/-- Witness for C5 at concrete inputs. -/
theorem c5_create_get_roundtrip_witness :
    (create emptyStore "u1" "t" "d" 4).1 =
      .ok { id := 1, title := "t", description := "d", isCompleted := false,
            createdDate := 4, updatedDate := 4 } ∧
    getTodo (create emptyStore "u1" "t" "d" 4).2 "u1" 1 =
      .ok { id := 1, title := "t", description := "d", isCompleted := false,
            createdDate := 4, updatedDate := 4 } :=
  c5_create_get_roundtrip emptyStore "u1" "t" "d" 4 emptyStore_wf (by decide)

/-- C1: a create under subject S1 leaves the partition of any other
subject S2 untouched — list(S2) and get(S2, id) are unchanged, the
created record never appears in list(S2), get(S2, id) of the created id
fails with NotFound (when that id was never created under S2), and that
NotFound is the very same value returned for an id never created under
any subject. -/
theorem c1_partition_isolation (σ : Store) (S1 S2 title description : String)
    (now : Nat) (hne : S1 ≠ S2) :
    (create σ S1 title description now).2 S2 = σ S2 ∧
    GetTodosAsync (create σ S1 title description now).2 S2 =
      GetTodosAsync σ S2 ∧
    (∀ id, getTodo ((create σ S1 title description now).2) S2 id =
      getTodo σ S2 id) ∧
    (∀ item, (create σ S1 title description now).1 = .ok item →
        (∀ u ∈ (σ S2).records, u.id ≠ item.id) →
          item ∉ GetTodosAsync ((create σ S1 title description now).2) S2 ∧
          getTodo ((create σ S1 title description now).2) S2 item.id =
            .error .NotFound) ∧
    (∀ id, (∀ u ∈ (σ S2).records, u.id ≠ id) →
        getTodo ((create σ S1 title description now).2) S2 id =
          .error .NotFound) := by
  have hfr : (create σ S1 title description now).2 S2 = σ S2 :=
    create_apply_ne σ S1 title description now (Ne.symm hne)
  have hnf : ∀ id : Nat, (∀ u ∈ (σ S2).records, u.id ≠ id) →
      getTodo ((create σ S1 title description now).2) S2 id =
        .error .NotFound := by
    intro id hfresh
    unfold getTodo
    rw [hfr, find?_id_eq_none hfresh]
  refine ⟨hfr, ?_, ?_, ?_, hnf⟩
  · unfold GetTodosAsync
    rw [hfr]
  · intro id
    unfold getTodo
    rw [hfr]
  · intro item _ hfresh
    refine ⟨?_, hnf item.id hfresh⟩
    intro hmem
    unfold GetTodosAsync at hmem
    rw [hfr] at hmem
    have hrec : item ∈ (σ S2).records :=
      (List.perm_insertionSort byCreatedDesc (σ S2).records).mem_iff.mp hmem
    exact hfresh item hrec rfl

/-- Witness for C1: a record created under u1 is invisible to u2, and the
NotFound for its id under u2 coincides with the NotFound of a fresh id. -/
theorem c1_partition_isolation_witness :
    (create emptyStore "u1" "a" "b" 0).2 "u2" = emptyStore "u2" ∧
    getTodo ((create emptyStore "u1" "a" "b" 0).2) "u2" 1 =
      .error .NotFound ∧
    getTodo ((create emptyStore "u1" "a" "b" 0).2) "u2" 99 =
      .error .NotFound :=
  ⟨(c1_partition_isolation emptyStore "u1" "u2" "a" "b" 0 (by decide)).1,
   (c1_partition_isolation emptyStore "u1" "u2" "a" "b" 0
      (by decide)).2.2.2.2 1 (fun u hu => absurd hu (List.not_mem_nil u)),
   (c1_partition_isolation emptyStore "u1" "u2" "a" "b" 0
      (by decide)).2.2.2.2 99 (fun u hu => absurd hu (List.not_mem_nil u))⟩

/-- C3: list is the partition content ordered by createdAt descending —
an empty (never-accessed) partition yields the empty list and no error,
the result is always a sorted permutation of the partition records, and
after creating R1 then R2 then R3 at increasing times, list returns
[R3, R2, R1]. -/
theorem c3_list_ordering :
    (∀ S, GetTodosAsync emptyStore S = []) ∧
    (∀ (σ : Store) (S : String),
        List.Sorted byCreatedDesc (GetTodosAsync σ S) ∧
        (GetTodosAsync σ S).Perm (σ S).records) ∧
    (∀ (S ti1 d1 ti2 d2 ti3 d3 : String) (t1 t2 t3 : Nat),
        isBlank ti1 = false → isBlank ti2 = false → isBlank ti3 = false →
        t1 < t2 → t2 < t3 →
        GetTodosAsync
          ((create ((create ((create emptyStore S ti1 d1 t1).2)
              S ti2 d2 t2).2) S ti3 d3 t3).2) S =
          [{ id := 3, title := ti3, description := d3, isCompleted := false,
             createdDate := t3, updatedDate := t3 },
           { id := 2, title := ti2, description := d2, isCompleted := false,
             createdDate := t2, updatedDate := t2 },
           { id := 1, title := ti1, description := d1, isCompleted := false,
             createdDate := t1, updatedDate := t1 }]) := by
  refine ⟨fun S => rfl, ?_, ?_⟩
  · intro σ S
    exact ⟨List.sorted_insertionSort byCreatedDesc (σ S).records,
           List.perm_insertionSort byCreatedDesc (σ S).records⟩
  · intro S ti1 d1 ti2 d2 ti3 d3 t1 t2 t3 hb1 hb2 hb3 h12 h23
    have h21 : ¬ (t2 ≤ t1) := Nat.not_le.mpr h12
    have h32 : ¬ (t3 ≤ t2) := Nat.not_le.mpr h23
    have h31 : ¬ (t3 ≤ t1) := Nat.not_le.mpr (Nat.lt_trans h12 h23)
    simp [GetTodosAsync, create, hb1, hb2, hb3, emptyStore, emptyPartition,
          byCreatedDesc, h21, h32, h31]

/-- Witness for C3 at concrete inputs. -/
theorem c3_list_ordering_witness :
    GetTodosAsync
      ((create ((create ((create emptyStore "u" "a" "" 1).2)
          "u" "b" "" 2).2) "u" "c" "" 3).2) "u" =
      [{ id := 3, title := "c", description := "", isCompleted := false,
         createdDate := 3, updatedDate := 3 },
       { id := 2, title := "b", description := "", isCompleted := false,
         createdDate := 2, updatedDate := 2 },
       { id := 1, title := "a", description := "", isCompleted := false,
         createdDate := 1, updatedDate := 1 }] :=
  c3_list_ordering.2.2 "u" "a" "" "b" "" "c" "" 1 2 3
    (by decide) (by decide) (by decide) (by decide) (by decide)

/-- C8: ids are assigned by a monotonic per-partition counter — over any
history of operations the ids handed out by the successful creates of a
partition are strictly increasing (hence unique and never reused, even
after deletes), the records of any reachable partition have pairwise
distinct ids all below the counter, no operation ever decreases the
counter, and a successful create hands out exactly the current counter
value, strictly greater than every id present, and bumps the counter. -/
theorem c8_monotonic_ids :
    (∀ (ops : List Op) (S : String),
        List.Pairwise (fun a b => a < b) (createdIdsFrom emptyStore ops S)) ∧
    (∀ (ops : List Op) (S : String), PartitionWF (run ops S)) ∧
    (∀ (σ : Store) (op : Op) (S : String),
        (σ S).nextId ≤ (applyOp σ op S).nextId) ∧
    (∀ (σ : Store) (S title description : String) (now : Nat),
        StoreWF σ → isBlank title = false →
        (create σ S title description now).1 =
          .ok { id := (σ S).nextId, title := title, description := description,
                isCompleted := false, createdDate := now, updatedDate := now } ∧
        (∀ u ∈ (σ S).records, u.id < (σ S).nextId) ∧
        ((create σ S title description now).2 S).nextId = (σ S).nextId + 1) := by
  refine ⟨fun ops S => createdIdsFrom_pairwise ops emptyStore S,
          fun ops S => run_wf ops S, fun σ op S => nextId_mono σ op S, ?_⟩
  intro σ S title description now hwf hb
  exact ⟨create_fst σ S title description now hb,
         fun u hu => (hwf S).1 u hu,
         create_nextId_succ σ S title description now hb⟩

/-- Witness for C8: a concrete history with a delete in the middle still
hands out strictly increasing ids, and a concrete create returns the
counter value. -/
theorem c8_monotonic_ids_witness :
    List.Pairwise (fun a b => a < b)
      (createdIdsFrom emptyStore
        [Op.create "u1" "a" "" 0, Op.delete "u1" 1,
         Op.create "u1" "b" "" 1] "u1") ∧
    (create emptyStore "u1" "t" "d" 7).1 =
      .ok { id := 1, title := "t", description := "d", isCompleted := false,
            createdDate := 7, updatedDate := 7 } :=
  ⟨c8_monotonic_ids.1 [Op.create "u1" "a" "" 0, Op.delete "u1" 1,
      Op.create "u1" "b" "" 1] "u1",
   (c8_monotonic_ids.2.2.2 emptyStore "u1" "t" "d" 7 emptyStore_wf
      (by decide)).1⟩

/-- C7: update replaces only the mutable fields from the patch, sets
updatedAt = now, preserves id and createdAt, leaves every other record
in every partition unchanged and returns the updated record; when the id
is absent from the partition of the calling subject it fails with
NotFound and changes no state at all. -/
theorem c7_update_frame (σ : Store) (S : String) (id : Nat)
    (patch : TodoPatch) (now : Nat) :
    (∀ s', s' ≠ S → (update σ S id patch now).2 s' = σ s') ∧
    ((σ S).records.find? (fun t => t.id == id) = none →
        update σ S id patch now = (.error .NotFound, σ)) ∧
    (∀ t, (σ S).records.find? (fun t => t.id == id) = some t →
        t.id = id ∧
        (update σ S id patch now).1 = .ok (applyPatch t patch now) ∧
        (applyPatch t patch now).id = t.id ∧
        (applyPatch t patch now).createdDate = t.createdDate ∧
        (applyPatch t patch now).title = patch.title ∧
        (applyPatch t patch now).description = patch.description ∧
        (applyPatch t patch now).isCompleted = patch.isCompleted ∧
        (applyPatch t patch now).updatedDate = now ∧
        ((update σ S id patch now).2 S).nextId = (σ S).nextId ∧
        ((update σ S id patch now).2 S).records =
          (σ S).records.map (fun u =>
            if u.id == id then applyPatch t patch now else u) ∧
        (∀ u ∈ (σ S).records, u.id ≠ id →
            u ∈ ((update σ S id patch now).2 S).records)) := by
  refine ⟨fun s' hs' => update_apply_ne σ S id patch now hs', ?_, ?_⟩
  · intro hnone
    unfold update
    rw [hnone]
  · intro t heq
    have ht : t.id = id := by simpa using List.find?_some heq
    have h2 : (update σ S id patch now).2 S =
        { records := (σ S).records.map (fun u =>
            if u.id == id then applyPatch t patch now else u),
          nextId := (σ S).nextId } := by
      unfold update
      rw [heq]
      simp only [eq_self_iff_true, if_true]
    refine ⟨ht, ?_, rfl, rfl, rfl, rfl, rfl, rfl, by rw [h2], by rw [h2], ?_⟩
    · unfold update
      rw [heq]
    · intro u hu hne
      rw [h2]
      dsimp only
      have hid : (if u.id == id then applyPatch t patch now else u) = u := by
        rw [if_neg (by simp [hne])]
      rw [← hid]
      exact List.mem_map_of_mem _ hu

/-- Witness for C7: updating the only record of a one-record partition,
and the frame on a different subject. -/
theorem c7_update_frame_witness :
    (update (create emptyStore "u1" "a" "b" 0).2 "u1" 1
        { title := "n", description := "m", isCompleted := true } 5).1 =
      .ok { id := 1, title := "n", description := "m", isCompleted := true,
            createdDate := 0, updatedDate := 5 } ∧
    (update (create emptyStore "u1" "a" "b" 0).2 "u1" 1
        { title := "n", description := "m", isCompleted := true } 5).2 "u2" =
      (create emptyStore "u1" "a" "b" 0).2 "u2" :=
  ⟨((c7_update_frame (create emptyStore "u1" "a" "b" 0).2 "u1" 1
      { title := "n", description := "m", isCompleted := true } 5).2.2
      { id := 1, title := "a", description := "b", isCompleted := false,
        createdDate := 0, updatedDate := 0 } rfl).2.1,
   (c7_update_frame (create emptyStore "u1" "a" "b" 0).2 "u1" 1
      { title := "n", description := "m", isCompleted := true } 5).1 "u2"
      (by decide)⟩

/-!
Part 2: the token validator.
The issuer, audience and clock-skew configuration is embedded from
Program.cs (the three AddJwtBearer registrations); the validation
pipeline itself lives in the JwtBearer middleware, outside the
repository, and is modelled from the spec.
-/

/-- From Program.cs, scheme AzureADv1: the legacy-format issuer URL
(sts.windows.net). -/
def azureADv1Issuer : String :=
  "https://sts.windows.net/52451440-c2a9-442f-8c20-8562d49f6846/"

/-- From Program.cs, scheme AzureADv2: the current-format issuer URL
(login.microsoftonline.com, v2.0). -/
def azureADv2Issuer : String :=
  "https://login.microsoftonline.com/52451440-c2a9-442f-8c20-8562d49f6846/v2.0"

/-- From Program.cs: the ValidAudiences array shared by all three
registrations (application client id and Microsoft Graph). -/
def validAudiences : List String :=
  ["01d37875-07ee-427e-8be5-594fbe4c5632",
   "00000003-0000-0000-c000-000000000000"]

/-- From Program.cs: ClockSkew = TimeSpan.FromMinutes(5), in seconds. -/
def clockSkewSeconds : Int := 5 * 60

/-- The TokenValidationParameters fields relevant to issuer, audience and
lifetime checking, as configured in Program.cs (ValidateIssuer,
ValidateAudience and ValidateLifetime are all true in each scheme). -/
structure TokenValidationParameters where
  validIssuers : List String
  validAudiences : List String
  clockSkewSeconds : Int
deriving Repr, DecidableEq

/-- Program.cs, AddJwtBearer AzureADv1. -/
def azureADv1Params : TokenValidationParameters :=
  { validIssuers := [azureADv1Issuer],
    validAudiences := validAudiences,
    clockSkewSeconds := clockSkewSeconds }

/-- Program.cs, AddJwtBearer AzureADv2. -/
def azureADv2Params : TokenValidationParameters :=
  { validIssuers := [azureADv2Issuer],
    validAudiences := validAudiences,
    clockSkewSeconds := clockSkewSeconds }

/-- Program.cs, the default (unnamed) AddJwtBearer scheme: both issuer
formats in one ValidIssuers list, same audiences, same clock skew. -/
def defaultParams : TokenValidationParameters :=
  { validIssuers := [azureADv1Issuer, azureADv2Issuer],
    validAudiences := validAudiences,
    clockSkewSeconds := clockSkewSeconds }

/-- The claims of an inbound bearer token that the validator inspects;
sigOk abstracts the outcome of signature verification against the key
source of the matched issuer (cryptography is outside the model). -/
structure Token where
  iss : String
  aud : List String
  exp : Int
  sub : String
  name : String
  email : String
  sigOk : Bool
deriving Repr, DecidableEq

inductive AuthError
  | UnknownIssuer
  | InvalidSignature
  | Expired
  | AudienceMismatch
  | MissingSubject
deriving Repr, DecidableEq

/-- The identity produced per validated token (spec data model). -/
structure IdentityClaims where
  subjectId : String
  displayName : String
  email : String
deriving Repr, DecidableEq

/-- One entry of the accepted-issuer table (spec: issuerUrl plus the
expected audiences; the signing-key source is abstracted by
Token.sigOk). -/
structure IssuerEntry where
  issuerUrl : String
  expectedAudiences : List String
deriving Repr, DecidableEq

/-- The accepted-issuer table of this deployment, holding the two
concrete issuer shapes configured in Program.cs. -/
def issuerTable : List IssuerEntry :=
  [{ issuerUrl := azureADv1Issuer, expectedAudiences := validAudiences },
   { issuerUrl := azureADv2Issuer, expectedAudiences := validAudiences }]

/-- Modelled from the spec: the expiry check — the expiry claim must be
strictly after nowUtc minus the clock-skew tolerance. -/
def expiryOk (exp nowUtc : Int) : Bool :=
  decide (nowUtc - clockSkewSeconds < exp)

/-- Modelled from the spec: validate(rawToken, nowUtc) — the issuer is
matched by exact string equality against the table (no match gives
UnknownIssuer), then signature, expiry, audience intersection and
non-empty subject are checked in order, short-circuiting on the first
failure (the JwtBearer middleware implementing this is outside the
repository). -/
def validate (table : List IssuerEntry) (tok : Token) (nowUtc : Int) :
    Except AuthError IdentityClaims :=
  match table.find? (fun e => e.issuerUrl == tok.iss) with
  | none => .error .UnknownIssuer
  | some e =>
    if tok.sigOk = false then .error .InvalidSignature
    else if expiryOk tok.exp nowUtc = false then .error .Expired
    else if tok.aud.any (fun a => e.expectedAudiences.contains a) = false then
      .error .AudienceMismatch
    else if tok.sub == "" then .error .MissingSubject
    else .ok { subjectId := tok.sub, displayName := tok.name,
               email := tok.email }

/-- C2: the two configured issuer shapes are both accepted — a token
under the legacy issuer format and a token under the current issuer
format each validate successfully on their own; issuer matching is exact
string equality against the table, and an issuer matching no entry fails
with UnknownIssuer. -/
theorem c2_dual_issuer_acceptance :
    (∀ (tok : Token) (now : Int),
        tok.iss = azureADv1Issuer → tok.sigOk = true →
        expiryOk tok.exp now = true →
        tok.aud.any (fun a => validAudiences.contains a) = true →
        tok.sub ≠ "" →
        validate issuerTable tok now =
          .ok { subjectId := tok.sub, displayName := tok.name,
                email := tok.email }) ∧
    (∀ (tok : Token) (now : Int),
        tok.iss = azureADv2Issuer → tok.sigOk = true →
        expiryOk tok.exp now = true →
        tok.aud.any (fun a => validAudiences.contains a) = true →
        tok.sub ≠ "" →
        validate issuerTable tok now =
          .ok { subjectId := tok.sub, displayName := tok.name,
                email := tok.email }) ∧
    (∀ (tok : Token) (now : Int),
        tok.iss ≠ azureADv1Issuer → tok.iss ≠ azureADv2Issuer →
        validate issuerTable tok now = .error .UnknownIssuer) ∧
    (∀ (tok : Token) (now : Int) (e : IssuerEntry),
        issuerTable.find? (fun en => en.issuerUrl == tok.iss) = some e →
        e.issuerUrl = tok.iss) := by
  refine ⟨?_, ?_, ?_, ?_⟩
  · intro tok now hiss hsig hexp haud hsub
    have hfind : issuerTable.find? (fun e => e.issuerUrl == tok.iss) =
        some { issuerUrl := azureADv1Issuer,
               expectedAudiences := validAudiences } := by
      simp only [hiss]
      decide
    unfold validate
    rw [hfind]
    simp [hsig, hexp, haud, hsub]
    simpa using haud
  · intro tok now hiss hsig hexp haud hsub
    have hfind : issuerTable.find? (fun e => e.issuerUrl == tok.iss) =
        some { issuerUrl := azureADv2Issuer,
               expectedAudiences := validAudiences } := by
      simp only [hiss]
      decide
    unfold validate
    rw [hfind]
    simp [hsig, hexp, haud, hsub]
    simpa using haud
  · intro tok now h1 h2
    have hfind : issuerTable.find? (fun e => e.issuerUrl == tok.iss) =
        none := by
      rw [List.find?_eq_none]
      intro e he
      simp only [issuerTable, List.mem_cons, List.mem_singleton,
                 List.not_mem_nil, or_false] at he
      rcases he with he | he
      · subst he
        simpa using fun hh => h1 hh.symm
      · subst he
        simpa using fun hh => h2 hh.symm
    unfold validate
    rw [hfind]
  · intro tok now e hfind
    simpa using List.find?_some hfind

/-- Witness for C2: a legacy-format token and a current-format token
both validate; a foreign issuer fails with UnknownIssuer. -/
theorem c2_dual_issuer_acceptance_witness :
    validate issuerTable
      { iss := "https://sts.windows.net/52451440-c2a9-442f-8c20-8562d49f6846/",
        aud := ["01d37875-07ee-427e-8be5-594fbe4c5632"], exp := 1000,
        sub := "user-v1", name := "A", email := "a@x", sigOk := true } 0 =
      .ok { subjectId := "user-v1", displayName := "A", email := "a@x" } ∧
    validate issuerTable
      { iss := "https://login.microsoftonline.com/52451440-c2a9-442f-8c20-8562d49f6846/v2.0",
        aud := ["00000003-0000-0000-c000-000000000000"], exp := 1000,
        sub := "user-v2", name := "B", email := "b@x", sigOk := true } 0 =
      .ok { subjectId := "user-v2", displayName := "B", email := "b@x" } ∧
    validate issuerTable
      { iss := "https://evil.example/", aud := ["01d37875-07ee-427e-8be5-594fbe4c5632"],
        exp := 1000, sub := "user-x", name := "C", email := "c@x",
        sigOk := true } 0 = .error .UnknownIssuer :=
  ⟨c2_dual_issuer_acceptance.1 _ 0 rfl rfl (by decide) (by decide) (by decide),
   c2_dual_issuer_acceptance.2.1 _ 0 rfl rfl (by decide) (by decide) (by decide),
   c2_dual_issuer_acceptance.2.2.1 _ 0 (by decide) (by decide)⟩

/-- C6: for a token reaching the expiry step (issuer matched, signature
valid), validation fails with Expired exactly when the expiry claim is
not strictly after nowUtc minus the 5-minute clock-skew tolerance; an
expiry within the 5-minute window before nowUtc passes the check. -/
theorem c6_expiry_check (tok : Token) (now : Int) (e : IssuerEntry)
    (hfind : issuerTable.find? (fun en => en.issuerUrl == tok.iss) = some e)
    (hsig : tok.sigOk = true) :
    clockSkewSeconds = 5 * 60 ∧
    (validate issuerTable tok now = .error .Expired ↔
      tok.exp ≤ now - clockSkewSeconds) ∧
    (now - clockSkewSeconds < tok.exp →
      expiryOk tok.exp now = true ∧
      validate issuerTable tok now ≠ .error .Expired) := by
  have hfalse : expiryOk tok.exp now = false →
      validate issuerTable tok now = .error .Expired := by
    intro hex
    unfold validate
    rw [hfind]
    dsimp only
    rw [if_neg (show ¬ (tok.sigOk = false) from by simp [hsig]), if_pos hex]
  have htrue : expiryOk tok.exp now = true →
      validate issuerTable tok now ≠ .error .Expired := by
    intro hex hv
    unfold validate at hv
    rw [hfind] at hv
    dsimp only at hv
    rw [if_neg (show ¬ (tok.sigOk = false) from by simp [hsig]),
        if_neg (show ¬ (expiryOk tok.exp now = false) from by simp [hex])] at hv
    split at hv
    · simp at hv
    · split at hv
      · simp at hv
      · simp at hv
  refine ⟨rfl, ⟨?_, ?_⟩, ?_⟩
  · intro hv
    by_contra hle
    have hlt : now - clockSkewSeconds < tok.exp :=
      Int.not_le.mp hle
    exact htrue (decide_eq_true hlt) hv
  · intro hle
    exact hfalse (decide_eq_false (Int.not_lt.mpr hle))
  · intro hlt
    exact ⟨decide_eq_true hlt, htrue (decide_eq_true hlt)⟩

/-- Witness for C6: an expired legacy-format token is rejected with
Expired, and a token expiring inside the tolerance window passes the
expiry check. -/
theorem c6_expiry_check_witness :
    validate issuerTable
      { iss := "https://sts.windows.net/52451440-c2a9-442f-8c20-8562d49f6846/",
        aud := ["01d37875-07ee-427e-8be5-594fbe4c5632"], exp := -1000,
        sub := "user", name := "A", email := "a@x", sigOk := true } 0 =
      .error .Expired ∧
    expiryOk (-100) 0 = true :=
  ⟨((c6_expiry_check
      { iss := "https://sts.windows.net/52451440-c2a9-442f-8c20-8562d49f6846/",
        aud := ["01d37875-07ee-427e-8be5-594fbe4c5632"], exp := -1000,
        sub := "user", name := "A", email := "a@x", sigOk := true } 0
      { issuerUrl := azureADv1Issuer, expectedAudiences := validAudiences }
      (by decide) rfl).2.1).mpr (by decide),
   ((c6_expiry_check
      { iss := "https://sts.windows.net/52451440-c2a9-442f-8c20-8562d49f6846/",
        aud := ["01d37875-07ee-427e-8be5-594fbe4c5632"], exp := -100,
        sub := "user", name := "A", email := "a@x", sigOk := true } 0
      { issuerUrl := azureADv1Issuer, expectedAudiences := validAudiences }
      (by decide) rfl).2.2 (by decide)).1⟩

/-- Modelled from the spec and the JwtBearer validation semantics it
describes: a token's declared issuer, audience and lifetime pass a
TokenValidationParameters configuration exactly when the issuer is in
ValidIssuers, some audience claim is among ValidAudiences, and the
expiry is later than now minus ClockSkew. -/
def paramsAccept (p : TokenValidationParameters) (tok : Token)
    (now : Int) : Bool :=
  p.validIssuers.contains tok.iss &&
    tok.aud.any (fun a => p.validAudiences.contains a) &&
    decide (now - p.clockSkewSeconds < tok.exp)

/-- C9: the default (unnamed) JWT bearer scheme is configured with
exactly the union of the AzureADv1 and AzureADv2 ValidIssuers lists, the
same ValidAudiences and the same 5-minute ClockSkew, so its
issuer/audience/lifetime acceptance coincides with the disjunction of
the two named schemes. -/
theorem c9_default_scheme_union :
    defaultParams.validIssuers =
      azureADv1Params.validIssuers ++ azureADv2Params.validIssuers ∧
    defaultParams.validAudiences = azureADv1Params.validAudiences ∧
    defaultParams.validAudiences = azureADv2Params.validAudiences ∧
    defaultParams.clockSkewSeconds = 5 * 60 ∧
    azureADv1Params.clockSkewSeconds = 5 * 60 ∧
    azureADv2Params.clockSkewSeconds = 5 * 60 ∧
    (∀ (tok : Token) (now : Int),
        paramsAccept defaultParams tok now =
          (paramsAccept azureADv1Params tok now ||
           paramsAccept azureADv2Params tok now)) := by
  refine ⟨rfl, rfl, rfl, rfl, rfl, rfl, ?_⟩
  intro tok now
  unfold paramsAccept defaultParams azureADv1Params azureADv2Params
  dsimp only
  simp only [List.contains_cons, List.contains_nil, Bool.or_false]
  cases tok.iss == azureADv1Issuer <;>
    cases tok.iss == azureADv2Issuer <;>
    cases tok.aud.any (fun a => validAudiences.contains a) <;>
    cases decide (now - clockSkewSeconds < tok.exp) <;> simp

/-!
Part 3: the Angular client (app.component.ts).
-/

/-- The MSAL account fields the component reads (getActiveAccount). -/
structure MsalAccount where
  localAccountId : String
  username : String
  userFullName : String
deriving Repr, DecidableEq

/-- Outcome of acquireTokenSilent as observed by getAuthHeaders: the
promise resolves with a response whose accessToken may be absent or the
empty string (falsy), or it rejects (the catch branch). -/
inductive AcquireTokenResult
  | resolved (accessToken : String)
  | rejected
deriving Repr, DecidableEq

/-- Embeds AppComponent.getAuthHeaders: with an active account it
requests a token silently; when the response carries a non-empty access
token the Authorization and Content-Type headers are returned, and in
every other case (no account, rejection, empty token) only Content-Type
is returned — the component never throws here. -/
def getAuthHeaders (account : Option MsalAccount)
    (acquire : AcquireTokenResult) : List (String × String) :=
  match account with
  | some _ =>
    match acquire with
    | .resolved tok =>
      if tok == "" then [("Content-Type", "application/json")]
      else [("Authorization", "Bearer " ++ tok),
            ("Content-Type", "application/json")]
    | .rejected => [("Content-Type", "application/json")]
  | none => [("Content-Type", "application/json")]

/-- The API base URL of app.component.ts. -/
def apiUrl : String := "http://localhost:5000/api/todos"

/-- The HTTP request a component method hands to HttpClient. -/
structure HttpRequest where
  method : String
  url : String
  headers : List (String × String)
deriving Repr, DecidableEq

/-- Embeds AppComponent.loadTodos: GET on the api url with the headers
from getAuthHeaders, sent unconditionally. -/
def loadTodosRequest (account : Option MsalAccount)
    (acquire : AcquireTokenResult) : HttpRequest :=
  { method := "GET", url := apiUrl,
    headers := getAuthHeaders account acquire }

/-- Embeds AppComponent.addTodo: a POST is sent whenever the new title
is non-blank after trimming; a blank title sends nothing (and this guard
does not depend on the token state). -/
def addTodoRequest (account : Option MsalAccount)
    (acquire : AcquireTokenResult) (newTitle : String) :
    Option HttpRequest :=
  if isBlank newTitle then none
  else some { method := "POST", url := apiUrl,
              headers := getAuthHeaders account acquire }

/-- Embeds AppComponent.updateTodo: a PUT on the id of the record being
edited, sent whenever an edit is in progress. -/
def updateTodoRequest (account : Option MsalAccount)
    (acquire : AcquireTokenResult) (editingTodo : Option TodoItem) :
    Option HttpRequest :=
  match editingTodo with
  | some t => some { method := "PUT", url := apiUrl ++ "/" ++ toString t.id,
                     headers := getAuthHeaders account acquire }
  | none => none

/-- Embeds AppComponent.deleteTodo: a DELETE on the given id, sent
unconditionally. -/
def deleteTodoRequest (account : Option MsalAccount)
    (acquire : AcquireTokenResult) (id : Nat) : HttpRequest :=
  { method := "DELETE", url := apiUrl ++ "/" ++ toString id,
    headers := getAuthHeaders account acquire }

/-- Embeds AppComponent.toggleComplete: a PUT on the given record id,
sent unconditionally. -/
def toggleCompleteRequest (account : Option MsalAccount)
    (acquire : AcquireTokenResult) (todo : TodoItem) : HttpRequest :=
  { method := "PUT", url := apiUrl ++ "/" ++ toString todo.id,
    headers := getAuthHeaders account acquire }

/-- C10: whenever there is no active account, or silent acquisition
rejects, or it yields no (or an empty, hence falsy) access token,
getAuthHeaders returns only the Content-Type header and every store
operation of the component still sends its HTTP request, without any
Authorization header — the client never fails an operation locally for
lack of a token. -/
theorem c10_requests_without_token (account : Option MsalAccount)
    (acquire : AcquireTokenResult)
    (h : account = none ∨ acquire = .rejected ∨
         acquire = .resolved "") :
    getAuthHeaders account acquire = [("Content-Type", "application/json")] ∧
    (∀ hdr ∈ getAuthHeaders account acquire, hdr.1 ≠ "Authorization") ∧
    loadTodosRequest account acquire =
      { method := "GET", url := apiUrl,
        headers := [("Content-Type", "application/json")] } ∧
    (∀ newTitle, isBlank newTitle = false →
        addTodoRequest account acquire newTitle =
          some { method := "POST", url := apiUrl,
                 headers := [("Content-Type", "application/json")] }) ∧
    (∀ t : TodoItem, updateTodoRequest account acquire (some t) =
        some { method := "PUT", url := apiUrl ++ "/" ++ toString t.id,
               headers := [("Content-Type", "application/json")] }) ∧
    (∀ id : Nat, deleteTodoRequest account acquire id =
        { method := "DELETE", url := apiUrl ++ "/" ++ toString id,
          headers := [("Content-Type", "application/json")] }) ∧
    (∀ t : TodoItem, toggleCompleteRequest account acquire t =
        { method := "PUT", url := apiUrl ++ "/" ++ toString t.id,
          headers := [("Content-Type", "application/json")] }) := by
  have hh : getAuthHeaders account acquire =
      [("Content-Type", "application/json")] := by
    rcases h with h | h | h
    · subst h
      rfl
    · subst h
      cases account <;> rfl
    · subst h
      cases account <;> rfl
  refine ⟨hh, ?_, ?_, ?_, ?_, ?_, ?_⟩
  · intro hdr hmem
    rw [hh] at hmem
    rcases List.mem_singleton.mp hmem with rfl
    decide
  · unfold loadTodosRequest
    rw [hh]
  · intro newTitle hb
    unfold addTodoRequest
    rw [if_neg (by simp [hb]), hh]
  · intro t
    unfold updateTodoRequest
    rw [hh]
  · intro id
    unfold deleteTodoRequest
    rw [hh]
  · intro t
    unfold toggleCompleteRequest
    rw [hh]

/-- Witness for C10: with an account present but a rejected silent
acquisition, the GET is still sent with only the Content-Type header. -/
theorem c10_requests_without_token_witness :
    getAuthHeaders
      (some { localAccountId := "id1", username := "u@x",
              userFullName := "U" }) .rejected =
      [("Content-Type", "application/json")] ∧
    loadTodosRequest
      (some { localAccountId := "id1", username := "u@x",
              userFullName := "U" }) .rejected =
      { method := "GET", url := apiUrl,
        headers := [("Content-Type", "application/json")] } :=
  ⟨(c10_requests_without_token
      (some { localAccountId := "id1", username := "u@x",
              userFullName := "U" }) .rejected (Or.inr (Or.inl rfl))).1,
   (c10_requests_without_token
      (some { localAccountId := "id1", username := "u@x",
              userFullName := "U" }) .rejected (Or.inr (Or.inl rfl))).2.2.1⟩
